import Mathlib

/-!
Verification of the Memory Safe Guard persistence layer.

This file gives a shallow embedding, in Lean 4, of the password-store
subsystem of the repository: the PostgreSQL-backed repository
(`server/repositories/password-repository.js`), the business-logic service
(`server/services/password-service.js`), the Zod-based validation layer
(`server/services/validation-service.js`), the database manager with its
error-code mapping (`server/db/database-manager.js`), the frontend
retry wrapper (`src/lib/utils/version-utils.ts`, `handleAsyncOperation`),
and the frontend service factory (`src/services/service-factory.ts`).

Machine integers are modelled as `Nat` (row ids, timestamps); SQL `NOW()`
is modelled by a logical clock `now` carried in the database state that
ticks on every successful write.  Fallible operations return `Except`.
-/

namespace MemorySafeGuard

/-- One row of the `passwords` table.  Schema per
`scripts/test-neon-integration.js` (`createPasswordsTable`):
`id, service, username, password, url, notes, created_at, updated_at`,
with `UNIQUE(service, username)`. -/
structure PasswordRecord where
  id : Nat
  service : String
  username : String
  password : String
  url : Option String
  notes : Option String
  createdAt : Nat
  updatedAt : Nat
deriving DecidableEq, Repr

/-- The remote database state: the stored rows, the id generator
(`gen_random_uuid()` modelled as a counter) and the clock backing
`NOW()`. -/
structure DbState where
  rows : List PasswordRecord
  nextId : Nat
  now : Nat
deriving DecidableEq, Repr

/-- Source `server/utils/app-error.js`: classified application error.
`originalError` carries the backend-native code that was wrapped, when
any (the `originalError` constructor argument of the source class). -/
structure AppError where
  message : String
  statusCode : Nat
  code : Option String
  originalError : Option String
deriving DecidableEq, Repr

/-- Does a live row with this `(service, username)` pair exist?  This is
the predicate enforced by the storage-level constraint
`UNIQUE(service, username)` of the `passwords` table. -/
def pairExists (rows : List PasswordRecord) (service username : String) : Bool :=
  rows.any fun r => r.service == service && r.username == username

/-- Storage-level `INSERT INTO passwords (service, username, password,
created_at, updated_at) VALUES ($1,$2,$3,NOW(),NOW()) RETURNING *`.
The unique index rejects a duplicate `(service, username)` pair with
native code `23505`; otherwise the row is stored with a fresh id and
`created_at = updated_at = NOW()`. -/
def insertRow (s : DbState) (service username password : String) :
    Except String (PasswordRecord × DbState) :=
  if pairExists s.rows service username then
    .error "23505"
  else
    let r : PasswordRecord :=
      { id := s.nextId, service := service, username := username,
        password := password, url := none, notes := none,
        createdAt := s.now, updatedAt := s.now }
    .ok (r, { rows := s.rows ++ [r], nextId := s.nextId + 1, now := s.now + 1 })

/-- Storage-level `UPDATE passwords SET service=$1, username=$2,
password=$3, updated_at=NOW() WHERE id=$4 RETURNING *`.  Returns `none`
(an empty `RETURNING` set, `result.rows[0]` being `undefined`) when no
row has the id; rejects with native code `23505` when the new
`(service, username)` pair collides with a different live row. -/
def updateRow (s : DbState) (id : Nat) (service username password : String) :
    Except String (Option PasswordRecord × DbState) :=
  match s.rows.find? (fun r => r.id == id) with
  | none => .ok (none, s)
  | some r0 =>
    if pairExists (s.rows.filter fun r => !(r.id == id)) service username then
      .error "23505"
    else
      let r' : PasswordRecord :=
        { r0 with service := service, username := username,
                  password := password, updatedAt := s.now }
      .ok (some r',
        { s with rows := s.rows.map fun x => if x.id == id then r' else x,
                 now := s.now + 1 })

/-- Storage-level `DELETE FROM passwords WHERE id = $1`. -/
def deleteRows (s : DbState) (id : Nat) : DbState :=
  { s with rows := s.rows.filter fun r => !(r.id == id) }

namespace DatabaseManager

/-- Source `database-manager.js`, `transformDatabaseError`: the switch on the
backend-native `error.code` mapping every failure to a classified
`AppError` before it leaves the database component.  `none` models a
caught error without a `code` property (the switch default). -/
def transformDatabaseError (code : Option String) : AppError :=
  if code = some "23505" then
    { message := "Duplicate entry found", statusCode := 409,
      code := some "DUPLICATE_ENTRY", originalError := code }
  else if code = some "23503" then
    { message := "Invalid reference to related resource", statusCode := 400,
      code := some "INVALID_REFERENCE", originalError := code }
  else if code = some "23502" then
    { message := "Required field is missing", statusCode := 400,
      code := some "MISSING_REQUIRED_FIELD", originalError := code }
  else if code = some "42P01" then
    { message := "Database table not found", statusCode := 500,
      code := some "TABLE_NOT_FOUND", originalError := code }
  else if code = some "42703" then
    { message := "Database column not found", statusCode := 500,
      code := some "COLUMN_NOT_FOUND", originalError := code }
  else if code = some "28P01" then
    { message := "Database authentication failed", statusCode := 500,
      code := some "AUTH_FAILED", originalError := code }
  else if code = some "ECONNREFUSED" then
    { message := "Database connection refused", statusCode := 500,
      code := some "CONNECTION_REFUSED", originalError := code }
  else if code = some "ETIMEDOUT" then
    { message := "Database connection timeout", statusCode := 500,
      code := some "CONNECTION_TIMEOUT", originalError := code }
  else
    { message := "Database operation failed", statusCode := 500,
      code := some "DATABASE_ERROR", originalError := code }

end DatabaseManager

namespace PasswordRepository

/-- Source `password-repository.js`, `findById`:
`SELECT * FROM passwords WHERE id = $1`, returning `rows[0] || null`. -/
def findById (s : DbState) (id : Nat) : Option PasswordRecord :=
  s.rows.find? fun r => r.id == id

/-- Source `password-repository.js`, `findByServiceAndUsername`:
`SELECT * FROM passwords WHERE service = $1 AND username = $2`. -/
def findByServiceAndUsername (s : DbState) (service username : String) :
    Option PasswordRecord :=
  s.rows.find? fun r => r.service == service && r.username == username

/-- Source `password-repository.js`, `create`: runs the storage insert through
`db.query`, whose catch block rethrows `transformDatabaseError(error)`. -/
def create (s : DbState) (service username password : String) :
    Except AppError (PasswordRecord × DbState) :=
  match insertRow s service username password with
  | .ok x => .ok x
  | .error c => .error (DatabaseManager.transformDatabaseError (some c))

/-- Source `password-repository.js`, `update`: the storage update through
`db.query` with its error transformation. -/
def update (s : DbState) (id : Nat) (service username password : String) :
    Except AppError (Option PasswordRecord × DbState) :=
  match updateRow s id service username password with
  | .ok x => .ok x
  | .error c => .error (DatabaseManager.transformDatabaseError (some c))

/-- Source `password-repository.js`, `delete`: `DELETE FROM passwords WHERE
id = $1`; no existence check, no returned rows. -/
def deleteById (s : DbState) (id : Nat) : DbState :=
  deleteRows s id

end PasswordRepository

/-- Validated password payload: the output type of the Zod schema
(`service`, `username` trimmed by the `.trim()` transform). -/
structure PasswordData where
  service : String
  username : String
  password : String
deriving DecidableEq, Repr

namespace SecurityService

/-- Source `security-service.js`, `encryptPasswordData`: a documented no-op that
returns the data unchanged ("Hiện tại chỉ return data gốc"). -/
def encryptPasswordData (d : PasswordData) : PasswordData := d

end SecurityService

namespace PasswordService

/-- Source `password-service.js`, `createPassword`: application-level duplicate
pre-check (409 when a row with the pair exists), then the documented
encryption no-op, then the repository insert. -/
def createPassword (s : DbState) (d : PasswordData) :
    Except AppError (PasswordRecord × DbState) :=
  match PasswordRepository.findByServiceAndUsername s d.service d.username with
  | some _ =>
    .error { message := "Password entry already exists for this service and username",
             statusCode := 409, code := none, originalError := none }
  | none =>
    let e := SecurityService.encryptPasswordData d
    PasswordRepository.create s e.service e.username e.password

/-- Source `password-service.js`, `updatePassword`: `findById` existence check
(404 when absent), encryption no-op, repository update.  The unreachable
empty-`RETURNING` branch surfaces as the generic catch-all
`AppError('Failed to update password', 500)` of the source. -/
def updatePassword (s : DbState) (id : Nat) (d : PasswordData) :
    Except AppError (PasswordRecord × DbState) :=
  match PasswordRepository.findById s id with
  | none =>
    .error { message := "Password not found", statusCode := 404,
             code := none, originalError := none }
  | some _ =>
    let e := SecurityService.encryptPasswordData d
    match PasswordRepository.update s id e.service e.username e.password with
    | .error err => .error err
    | .ok (none, _) =>
      .error { message := "Failed to update password", statusCode := 500,
               code := none, originalError := none }
    | .ok (some r, s') => .ok (r, s')

/-- Source `password-service.js`, `deletePassword`: `findById` existence check
(404 when absent), then the repository delete. -/
def deletePassword (s : DbState) (id : Nat) : Except AppError DbState :=
  match PasswordRepository.findById s id with
  | none =>
    .error { message := "Password not found", statusCode := 404,
             code := none, originalError := none }
  | some _ => .ok (PasswordRepository.deleteById s id)

end PasswordService

/-- Raw request body for create/update: each field either absent
(`none`) or a string, as seen by the Zod object schema. -/
structure RawPasswordData where
  service : Option String
  username : Option String
  password : Option String
deriving DecidableEq, Repr

/-- JavaScript `String.prototype.trim` (whitespace stripped from both
ends), written structurally so concrete inputs evaluate. -/
def jsTrim (s : String) : String :=
  String.mk (((s.toList.dropWhile Char.isWhitespace).reverse.dropWhile
    Char.isWhitespace).reverse)

namespace ValidationService

/-- Zod issues for one `z.string().min(1, reqMsg).max(maxLen, longMsg)`
field: a missing key yields the standard "Required" issue; an empty
string the custom min message; an over-long string the max message. -/
def fieldIssues (path : String) (v : Option String) (maxLen : Nat)
    (reqMsg longMsg : String) : List (String × String) :=
  match v with
  | none => [(path, "Required")]
  | some s =>
    (if s.length < 1 then [(path, reqMsg)] else []) ++
    (if s.length > maxLen then [(path, longMsg)] else [])

/-- All issues the password schema of `validation-service.js` reports:
`service` 1..100, `username` 1..100, `password` 1..500, with the custom
messages of the source.  Zod collects the issues of every field, not
just the first. -/
def passwordIssues (d : RawPasswordData) : List (String × String) :=
  fieldIssues "service" d.service 100 "Service name is required" "Service name too long" ++
  fieldIssues "username" d.username 100 "Username is required" "Username too long" ++
  fieldIssues "password" d.password 500 "Password is required" "Password too long"

/-- JavaScript `Array.prototype.join(sep)`. -/
def joinSep (sep : String) : List String → String
  | [] => ""
  | [a] => a
  | a :: b :: rest => a ++ sep ++ joinSep sep (b :: rest)

/-- The message of the `AppError` thrown on validation failure:
`Validation failed: ${messages.join(', ')}` where each entry is
`${err.path.join('.')}: ${err.message}`. -/
def validationMessage (d : RawPasswordData) : String :=
  "Validation failed: " ++
    joinSep ", " ((passwordIssues d).map fun i => i.1 ++ ": " ++ i.2)

/-- Source `validation-service.js`, `validatePasswordData`: `schema.parse`
succeeds exactly when no issue is reported, applying the `.trim()`
transforms of `service` and `username`; otherwise it throws an
`AppError` (status 400) whose message lists every issue. -/
def validatePasswordData (d : RawPasswordData) : Except AppError PasswordData :=
  match d.service, d.username, d.password with
  | some sv, some un, some pw =>
    if passwordIssues d = [] then
      .ok { service := jsTrim sv, username := jsTrim un, password := pw }
    else
      .error { message := validationMessage d, statusCode := 400,
               code := none, originalError := none }
  | _, _, _ =>
    .error { message := validationMessage d, statusCode := 400,
             code := none, originalError := none }

/-- The characters removed by the first step of `sanitizeSqlInput`
(the regex `/['"\;]/g`): single quote, double quote, backslash,
semicolon. -/
def sqlStrippedChars : List Char := [Char.ofNat 39, Char.ofNat 34, Char.ofNat 92, Char.ofNat 59]

/-- Left-to-right removal of every non-overlapping occurrence of the
two-character sequence `a b` (JavaScript `replace(/ab/g, '')`). -/
def stripPairs (a b : Char) : List Char → List Char
  | [] => []
  | [c] => [c]
  | c :: c2 :: rest =>
    if c = a ∧ c2 = b then stripPairs a b rest
    else c :: stripPairs a b (c2 :: rest)

/-- Source `validation-service.js`, `sanitizeSqlInput`: removes quotes,
backslashes and semicolons, then `--` sequences, then `/*` sequences,
then trims.  (Defined from the source; the create/update request path
never invokes it.) -/
def sanitizeSqlInput (input : String) : String :=
  jsTrim (String.mk (stripPairs (Char.ofNat 47) (Char.ofNat 42)
    (stripPairs (Char.ofNat 45) (Char.ofNat 45)
      (input.toList.filter fun c => !(sqlStrippedChars.contains c)))))

end ValidationService

namespace PasswordController

/-- Source `password-controller.js`, `createPassword`: validates the body
first; only a successfully validated payload reaches
`passwordService.createPassword`.  The returned state is the store
after the request (unchanged whenever an error is returned). -/
def createPassword (s : DbState) (body : RawPasswordData) :
    Except AppError PasswordRecord × DbState :=
  match ValidationService.validatePasswordData body with
  | .error e => (.error e, s)
  | .ok d =>
    match PasswordService.createPassword s d with
    | .error e => (.error e, s)
    | .ok (r, s') => (.ok r, s')

/-- Source `password-controller.js`, `updatePassword`: validates the body with
the same full schema, then calls `passwordService.updatePassword`. -/
def updatePassword (s : DbState) (id : Nat) (body : RawPasswordData) :
    Except AppError PasswordRecord × DbState :=
  match ValidationService.validatePasswordData body with
  | .error e => (.error e, s)
  | .ok d =>
    match PasswordService.updatePassword s id d with
    | .error e => (.error e, s)
    | .ok (r, s') => (.ok r, s')

end PasswordController

namespace DatabaseManager

/-- Connection-pool events visible in one `query`/`transaction` run. -/
inductive DbEvent where
  | acquire
  | release
  | beginTx
  | commitTx
  | rollbackTx
  | exec
deriving DecidableEq, Repr

/-- Environment of one `DatabaseManager.query` run: whether the pool is
initialized, the outcome of `pool.connect()`, and the outcome of the
statement (`.error` carries the backend-native code). -/
structure QueryEnv (α : Type) where
  poolInitialized : Bool
  connect : Except String Unit
  stmt : Except String α

/-- Source `database-manager.js`, `query`: the whole body runs in a
`try`/`catch`/`finally`; every caught failure (missing pool, connect
failure, statement failure) is rethrown as
`transformDatabaseError(error)`, and the `finally` block releases the
client exactly when one was acquired.  The returned trace lists the
pool events of the run. -/
def query (env : QueryEnv α) : Except AppError α × List DbEvent :=
  if env.poolInitialized = false then
    (.error (transformDatabaseError none), [])
  else
    match env.connect with
    | .error c => (.error (transformDatabaseError (some c)), [])
    | .ok _ =>
      match env.stmt with
      | .ok v => (.ok v, [.acquire, .exec, .release])
      | .error c =>
        (.error (transformDatabaseError (some c)), [.acquire, .exec, .release])

/-- Outcome of `DatabaseManager.transaction`: a connect failure happens
before the `try` block and propagates raw (untransformed); a failure
inside the transaction body is rolled back and rethrown classified. -/
inductive TxFailure where
  | raw (code : String)
  | classified (e : AppError)
deriving DecidableEq, Repr

/-- Source `database-manager.js`, `transaction`: acquire a client, `BEGIN`, run
the callback, `COMMIT` on success; on any failure inside the body,
`ROLLBACK`, then rethrow `transformDatabaseError(error)`; the `finally`
block always releases the acquired client.  The callback is modelled as
a state transformer over the store that either produces a value and a
new store or fails with a backend-native code; `ROLLBACK` discards the
callback's tentative writes. -/
def transaction (connect : Except String Unit)
    (callback : DbState → Except String (α × DbState)) (s : DbState) :
    Except TxFailure α × DbState × List DbEvent :=
  match connect with
  | .error c => (.error (.raw c), s, [])
  | .ok _ =>
    match callback s with
    | .ok (v, s') =>
      (.ok v, s', [.acquire, .beginTx, .exec, .commitTx, .release])
    | .error c =>
      (.error (.classified (transformDatabaseError (some c))), s,
       [.acquire, .beginTx, .exec, .rollbackTx, .release])

end DatabaseManager

namespace Frontend

/-- Source `src/lib/types/error-types.ts`, `ErrorType`: the frontend error
taxonomy.  Note there is no Conflict and no NotFound kind. -/
inductive ErrorType where
  | VALIDATION
  | DATABASE
  | NETWORK
  | AUTHENTICATION
  | PERMISSION
  | CLIPBOARD
  | UNKNOWN
deriving DecidableEq, Repr

/-- Source `src/lib/types/error-types.ts`, `ErrorRecoveryStrategy`. -/
inductive ErrorRecoveryStrategy where
  | RETRY
  | FALLBACK
  | REDIRECT
  | RELOAD
  | IGNORE
deriving DecidableEq, Repr

/-- Source `version-utils.ts`, `AppError.getDefaultRecoveryStrategy`: the
strategy table deciding which kinds the wrapper re-attempts. -/
def getDefaultRecoveryStrategy : ErrorType → ErrorRecoveryStrategy
  | .VALIDATION => .FALLBACK
  | .DATABASE => .RETRY
  | .NETWORK => .RETRY
  | .AUTHENTICATION => .REDIRECT
  | .PERMISSION => .FALLBACK
  | .CLIPBOARD => .RETRY
  | .UNKNOWN => .RETRY

/-- A value caught by the wrapper's `catch`: either a frontend
`AppError` carrying its kind, or any other thrown error (for example a
failure surfaced from an HTTP response, such as a backend Conflict or
NotFound), which is not an `AppError` instance. -/
inductive CaughtError where
  | appError (t : ErrorType)
  | jsError
deriving DecidableEq, Repr

/-- Source `version-utils.ts`: `lastError instanceof AppError ? lastError :
new AppError(message, ErrorType.UNKNOWN, ...)` — the classification the
wrapper applies to a caught error. -/
def classifyCaught : CaughtError → ErrorType
  | .appError t => t
  | .jsError => .UNKNOWN

/-- Result of a wrapper run: the resolved value or the classified kind
of the propagated error, the number of attempts made, and the backoff
waits (in ms) performed before each re-attempt. -/
structure RunResult (α : Type) where
  outcome : Except ErrorType α
  attempts : Nat
  delays : List Nat
deriving Repr

/-- The retry loop of `version-utils.ts`, `handleAsyncOperation`
(`for attempt = 0..retryCount`): on failure, classify; re-attempt after
`retryDelay * 2 ^ attempt` only while budget remains and the classified
kind's strategy is RETRY; otherwise propagate (`showToast` true).
`attempt` is the index of the current attempt and `remaining` the loop
iterations still allowed after it. -/
def handleAux (outcomes : Nat → Except CaughtError α) (retryDelay : Nat) :
    Nat → Nat → RunResult α
  | attempt, remaining =>
    match outcomes attempt with
    | .ok v => { outcome := .ok v, attempts := attempt + 1, delays := [] }
    | .error e =>
      let k := classifyCaught e
      match remaining with
      | 0 => { outcome := .error k, attempts := attempt + 1, delays := [] }
      | r + 1 =>
        if getDefaultRecoveryStrategy k = .RETRY then
          let d := retryDelay * 2 ^ attempt
          let rest := handleAux outcomes retryDelay (attempt + 1) r
          { rest with delays := d :: rest.delays }
        else
          { outcome := .error k, attempts := attempt + 1, delays := [] }

/-- Source `version-utils.ts`, `handleAsyncOperation` with `showToast = true`:
run up to `retryCount + 1` attempts with exponential backoff.
`outcomes n` is the result of the n-th attempt of the wrapped
operation. -/
def handleAsyncOperation (outcomes : Nat → Except CaughtError α)
    (retryCount retryDelay : Nat) : RunResult α :=
  handleAux outcomes retryDelay 0 retryCount

end Frontend

namespace ServiceFactory

/-- The two backend service kinds the factory can hand out. -/
inductive ServiceKind where
  | neon
  | indexeddb
deriving DecidableEq, Repr

/-- A constructed service instance (identity tracked by a counter so
that caching versus reconstruction is observable). -/
structure ServiceInstance where
  kind : ServiceKind
  instanceId : Nat
deriving DecidableEq, Repr

/-- Source `service-factory.ts`: the static `services` cache plus bookkeeping
counting constructions. -/
structure FactoryState where
  services : List (String × ServiceInstance)
  nextInstanceId : Nat
  constructions : Nat
deriving DecidableEq, Repr

/-- The configuration snapshot `detectServiceType` reads:
`ENV_CONFIG.DATABASE_URL` non-empty, `ENV_CONFIG.USE_NEONDB`, and the
default `API_CONFIG.ENABLE_SYNC`. -/
structure EnvConfig where
  databaseUrlNonEmpty : Bool
  useNeonDB : Bool
  enableSyncDefault : Bool
deriving DecidableEq, Repr

/-- Source `service-factory.ts`, `detectServiceType`: neon when forced by env
or a connection string is configured, else indexeddb. -/
def detectServiceType (env : EnvConfig) : ServiceKind :=
  if env.useNeonDB || env.databaseUrlNonEmpty then .neon else .indexeddb

/-- The `ServiceFactoryConfig` interface of `service-factory.ts`. -/
structure ServiceFactoryConfig where
  enableApiSync : Option Bool := none
  repositoryType : Option ServiceKind := none
  useNeonDB : Option Bool := none
  forceNeonDB : Bool := false
deriving DecidableEq, Repr

/-- JavaScript booleans rendered into cache keys. -/
def boolKey (b : Bool) : String := if b then "true" else "false"

/-- Name of a repository kind inside a cache key. -/
def kindKey : ServiceKind → String
  | .neon => "neondb"
  | .indexeddb => "indexeddb"

/-- Cache lookup / fill with construction bookkeeping (`this.services`
`Map` of the source: return the entry when present, otherwise construct
and memoize). -/
def getOrCreate (key : String) (kind : ServiceKind) (st : FactoryState) :
    ServiceInstance × FactoryState :=
  match st.services.lookup key with
  | some inst => (inst, st)
  | none =>
    let inst : ServiceInstance := { kind := kind, instanceId := st.nextInstanceId }
    (inst, { services := st.services ++ [(key, inst)],
             nextInstanceId := st.nextInstanceId + 1,
             constructions := st.constructions + 1 })

/-- Source `service-factory.ts`, `createPasswordService`: resolve
`enableApiSync` (default `API_CONFIG.ENABLE_SYNC`), auto-detect the type
when none is given, choose neon when forced or detected, and serve the
keyed singleton from the cache, constructing it only on a miss. -/
def createPasswordService (env : EnvConfig) (cfg : ServiceFactoryConfig)
    (st : FactoryState) : ServiceInstance × FactoryState :=
  let enableApiSync := cfg.enableApiSync.getD env.enableSyncDefault
  let detectedType := cfg.repositoryType.getD (detectServiceType env)
  let shouldUseNeonDB :=
    cfg.forceNeonDB || cfg.useNeonDB.getD false || detectedType == .neon
  if shouldUseNeonDB then
    getOrCreate ("neon-password-service-" ++ boolKey enableApiSync) .neon st
  else
    getOrCreate ("password-service-" ++ kindKey detectedType ++ "-" ++ boolKey enableApiSync)
      .indexeddb st

/-- Source `service-factory.ts`, `getNeonPasswordService`: the forced neon
selector (`forceNeonDB: true, enableApiSync: true`). -/
def getNeonPasswordService (env : EnvConfig) (st : FactoryState) :
    ServiceInstance × FactoryState :=
  createPasswordService env { forceNeonDB := true, enableApiSync := some true } st

/-- Source `service-factory.ts`, `getIndexedDBPasswordService`: the forced
indexeddb selector (`repositoryType: 'indexeddb', enableApiSync:
false`). -/
def getIndexedDBPasswordService (env : EnvConfig) (st : FactoryState) :
    ServiceInstance × FactoryState :=
  createPasswordService env
    { repositoryType := some .indexeddb, enableApiSync := some false } st

end ServiceFactory

/-- Well-formedness of a database state: every stored id was issued by
the id generator and every stored timestamp lies in the past of the
clock. -/
def DbWF (s : DbState) : Prop :=
  (∀ r ∈ s.rows, r.id < s.nextId) ∧ (∀ r ∈ s.rows, r.updatedAt < s.now)

instance (s : DbState) : Decidable (DbWF s) := by
  unfold DbWF; infer_instance

namespace Race

/-- Progress of one in-flight `PasswordService.createPassword` call,
split at its `await` boundaries: before the duplicate pre-check, after
a passed pre-check (about to `INSERT`), or finished. -/
inductive ThreadPhase where
  | start
  | checked
  | doneOk (r : PasswordRecord)
  | doneErr (e : AppError)
deriving DecidableEq, Repr

/-- One atomic step of a `createPassword` call for payload `d` against
the shared store: the pre-check step
(`findByServiceAndUsername` then the 409 early exit of
`password-service.js`), or the insert step (`repository.create`, whose
storage-level unique constraint failure is transformed to the 409
`DUPLICATE_ENTRY` error). -/
def stepThread (d : PasswordData) (s : DbState) :
    ThreadPhase → DbState × ThreadPhase
  | .start =>
    match PasswordRepository.findByServiceAndUsername s d.service d.username with
    | some _ =>
      (s, .doneErr { message := "Password entry already exists for this service and username",
                     statusCode := 409, code := none, originalError := none })
    | none => (s, .checked)
  | .checked =>
    match PasswordRepository.create s d.service d.username d.password with
    | .ok (r, s') => (s', .doneOk r)
    | .error e => (s, .doneErr e)
  | .doneOk r => (s, .doneOk r)
  | .doneErr e => (s, .doneErr e)

/-- Interleaved execution of two concurrent `createPassword` calls with
the same payload. -/
structure RaceConfig where
  store : DbState
  t1 : ThreadPhase
  t2 : ThreadPhase
deriving DecidableEq, Repr

/-- Schedule step: `true` advances call 1, `false` advances call 2. -/
def raceStep (d : PasswordData) (c : RaceConfig) : Bool → RaceConfig
  | true =>
    let (s', p') := stepThread d c.store c.t1
    { c with store := s', t1 := p' }
  | false =>
    let (s', p') := stepThread d c.store c.t2
    { c with store := s', t2 := p' }

/-- Run both calls under an arbitrary interleaving schedule. -/
def raceRun (d : PasswordData) (sched : List Bool) (c : RaceConfig) : RaceConfig :=
  sched.foldl (raceStep d) c

/-- Did the call resolve successfully? -/
def okPhase : ThreadPhase → Bool
  | .doneOk _ => true
  | _ => false

/-- Has the call finished (either way)? -/
def donePhase : ThreadPhase → Bool
  | .doneOk _ => true
  | .doneErr _ => true
  | _ => false

/-- A finished-with-error call carries a 409 Conflict status. -/
def errIs409 : ThreadPhase → Prop
  | .doneErr e => e.statusCode = 409
  | _ => True

/-- Invariant of the interleaved double-create: a call that resolved
successfully certifies that its `(service, username)` pair is live in
the store, the two calls never both succeed, and every failure seen so
far is a 409 Conflict. -/
def Inv (d : PasswordData) (c : RaceConfig) : Prop :=
  (okPhase c.t1 = true → pairExists c.store.rows d.service d.username = true) ∧
  (okPhase c.t2 = true → pairExists c.store.rows d.service d.username = true) ∧
  ¬(okPhase c.t1 = true ∧ okPhase c.t2 = true) ∧
  errIs409 c.t1 ∧ errIs409 c.t2

end Race

end MemorySafeGuard

namespace MemorySafeGuard

/-- Fields the data-model bounds of the specification (§3: service,
username 1..100 characters; secret 1..500) reject for a given raw body:
the per-field out-of-bounds predicate, written from the specification
wording for comparison with the Zod schema. -/
def boundViolated (v : Option String) (maxLen : Nat) : Bool :=
  match v with
  | none => true
  | some s => s.length < 1 || s.length > maxLen

/-- All fields of a raw body that violate the data-model bounds. -/
def violatedFields (d : RawPasswordData) : List String :=
  (if boundViolated d.service 100 then ["service"] else []) ++
  (if boundViolated d.username 100 then ["username"] else []) ++
  (if boundViolated d.password 500 then ["password"] else [])

/-- The classified labels `transformDatabaseError` can emit. -/
def classifiedCodes : List String :=
  ["DUPLICATE_ENTRY", "INVALID_REFERENCE", "MISSING_REQUIRED_FIELD",
   "TABLE_NOT_FOUND", "COLUMN_NOT_FOUND", "AUTH_FAILED",
   "CONNECTION_REFUSED", "CONNECTION_TIMEOUT", "DATABASE_ERROR"]

namespace ServiceFactory

/-- Service kind a factory cache key stands for (the factory only ever
fills neon keys with `NeonPasswordService` instances and the other keys
with IndexedDB-backed `PasswordService` instances). -/
def keyKind (k : String) : ServiceKind :=
  if k = "neon-password-service-true" ∨ k = "neon-password-service-false" then
    .neon
  else
    .indexeddb

/-- The factory cache only holds instances of the kind its key stands
for. -/
def FactoryWF (st : FactoryState) : Prop :=
  ∀ p ∈ st.services, p.2.kind = keyKind p.1

end ServiceFactory

/-- Equality of `Except` outcomes is decidable when both components
are, letting witnesses evaluate operations by `decide`. -/
instance {e a : Type} [DecidableEq e] [DecidableEq a] :
    DecidableEq (Except e a)
  | .error x, .error y =>
    decidable_of_iff (x = y) (by simp)
  | .error _, .ok _ => isFalse (by simp)
  | .ok _, .error _ => isFalse (by simp)
  | .ok x, .ok y =>
    decidable_of_iff (x = y) (by simp)

/-- Sample row used by concrete witnesses. -/
def sampleRec : PasswordRecord :=
  { id := 1, service := "Gmail", username := "a@x.com", password := "p1",
    url := none, notes := none, createdAt := 0, updatedAt := 0 }

/-- Sample one-row store used by concrete witnesses. -/
def sampleDb : DbState := { rows := [sampleRec], nextId := 2, now := 1 }

/-- Second sample row, with a pair distinct from `sampleRec`. -/
def sampleRec2 : PasswordRecord :=
  { id := 2, service := "Other", username := "b@y.com", password := "q1",
    url := none, notes := none, createdAt := 0, updatedAt := 0 }

/-- Two-row sample store used by the C2 collision witness. -/
def sampleDb2 : DbState := { rows := [sampleRec, sampleRec2], nextId := 3, now := 1 }

end MemorySafeGuard

namespace MemorySafeGuard

/-- After the storage delete, no row with the id remains. -/
theorem findById_deleteById (s : DbState) (id : Nat) :
    PasswordRepository.findById (PasswordRepository.deleteById s id) id = none := by
  unfold PasswordRepository.findById PasswordRepository.deleteById deleteRows
  rw [List.find?_eq_none]
  intro x hx
  rw [List.mem_filter] at hx
  simpa using hx.2

/-- C4: `deletePassword` fails with the 404 NotFound error when no
record with the id exists and never silently no-ops: after a
successful delete the record is gone (`findById` returns nothing) and a
second delete of the same id fails with NotFound instead of succeeding
silently. -/
theorem deletePassword_notFound_never_silent (s : DbState) (id : Nat) :
    (PasswordRepository.findById s id = none →
      PasswordService.deletePassword s id =
        .error { message := "Password not found", statusCode := 404,
                 code := none, originalError := none }) ∧
    ∀ r, PasswordRepository.findById s id = some r →
      ∃ s', PasswordService.deletePassword s id = .ok s' ∧
        PasswordRepository.findById s' id = none ∧
        PasswordService.deletePassword s' id =
          .error { message := "Password not found", statusCode := 404,
                   code := none, originalError := none } := by
  constructor
  · intro h
    unfold PasswordService.deletePassword
    rw [h]
  · intro r h
    refine ⟨PasswordRepository.deleteById s id, ?_, findById_deleteById s id, ?_⟩
    · unfold PasswordService.deletePassword
      rw [h]
    · unfold PasswordService.deletePassword
      rw [findById_deleteById s id]

/-- Concrete instantiation of the C4 theorem: deleting the sample
record succeeds, after which the record is gone and a second delete of
the same id returns the 404 NotFound error. -/
theorem deletePassword_notFound_never_silent_witness :
    ∃ s', PasswordService.deletePassword sampleDb 1 = .ok s' ∧
      PasswordRepository.findById s' 1 = none ∧
      PasswordService.deletePassword s' 1 =
        .error { message := "Password not found", statusCode := 404,
                 code := none, originalError := none } :=
  (deletePassword_notFound_never_silent sampleDb 1).2 sampleRec (by decide)

end MemorySafeGuard

namespace MemorySafeGuard

/-- C7: every backend-native failure code raised by a statement
execution is transformed into a classified `AppError` before leaving
the database component: `23505` becomes the 409 Conflict
(`DUPLICATE_ENTRY`), foreign-key (`23503`) and missing-field (`23502`)
violations become 400 errors, undefined schema objects (`42P01`,
`42703`) and authentication failure (`28P01`) become fatal 500 database
errors, connection refusal and timeout are classified, any other
failure becomes the generic `DATABASE_ERROR`, and `query` never lets a
raw native code through: its error outcome is always the transformed,
classified error. -/
theorem transformDatabaseError_classifies {α : Type} :
    (DatabaseManager.transformDatabaseError (some "23505") =
      { message := "Duplicate entry found", statusCode := 409,
        code := some "DUPLICATE_ENTRY", originalError := some "23505" }) ∧
    ((DatabaseManager.transformDatabaseError (some "23503")).statusCode = 400 ∧
      (DatabaseManager.transformDatabaseError (some "23503")).code = some "INVALID_REFERENCE") ∧
    ((DatabaseManager.transformDatabaseError (some "23502")).statusCode = 400 ∧
      (DatabaseManager.transformDatabaseError (some "23502")).code = some "MISSING_REQUIRED_FIELD") ∧
    ((DatabaseManager.transformDatabaseError (some "42P01")).statusCode = 500 ∧
      (DatabaseManager.transformDatabaseError (some "42P01")).code = some "TABLE_NOT_FOUND") ∧
    ((DatabaseManager.transformDatabaseError (some "42703")).statusCode = 500 ∧
      (DatabaseManager.transformDatabaseError (some "42703")).code = some "COLUMN_NOT_FOUND") ∧
    ((DatabaseManager.transformDatabaseError (some "28P01")).statusCode = 500 ∧
      (DatabaseManager.transformDatabaseError (some "28P01")).code = some "AUTH_FAILED") ∧
    ((DatabaseManager.transformDatabaseError (some "ECONNREFUSED")).code = some "CONNECTION_REFUSED") ∧
    ((DatabaseManager.transformDatabaseError (some "ETIMEDOUT")).code = some "CONNECTION_TIMEOUT") ∧
    (∀ c : Option String,
      (DatabaseManager.transformDatabaseError c).code.getD "" ∈ classifiedCodes ∧
      (DatabaseManager.transformDatabaseError c).statusCode ∈ [400, 409, 500]) ∧
    (∀ (env : DatabaseManager.QueryEnv α) (c : String),
      env.poolInitialized = true → env.connect = .ok () → env.stmt = .error c →
        (DatabaseManager.query env).1 =
          .error (DatabaseManager.transformDatabaseError (some c))) := by
  refine ⟨rfl, ⟨rfl, rfl⟩, ⟨rfl, rfl⟩, ⟨rfl, rfl⟩, ⟨rfl, rfl⟩, ⟨rfl, rfl⟩, rfl, rfl, ?_, ?_⟩
  · intro c
    unfold DatabaseManager.transformDatabaseError
    split_ifs <;> simp [classifiedCodes]
  · intro env c hPool hConn hStmt
    unfold DatabaseManager.query
    rw [hPool, hConn, hStmt]
    simp

/-- Concrete instantiation of the C7 theorem: a statement failing with
native code `23505` surfaces from `query` as the classified 409
`DUPLICATE_ENTRY` error. -/
theorem transformDatabaseError_classifies_witness :
    (DatabaseManager.query
      { poolInitialized := true, connect := .ok (),
        stmt := (.error "23505" : Except String Nat) }).1 =
      .error (DatabaseManager.transformDatabaseError (some "23505")) :=
  (transformDatabaseError_classifies (α := Nat)).2.2.2.2.2.2.2.2.2
    { poolInitialized := true, connect := .ok (), stmt := .error "23505" }
    "23505" rfl rfl rfl

end MemorySafeGuard

namespace MemorySafeGuard

/-- C8: connection acquisition and release are paired on every exit
path of `query` and `transaction` (equal numbers of acquire and release
events in every run), and every transaction executes
begin → callback → commit on success, while any failure inside the
sequence produces the rollback trace, leaves the store unchanged, and
propagates the error classified by `transformDatabaseError`. -/
theorem connection_pairing_and_transaction {α : Type} :
    (∀ env : DatabaseManager.QueryEnv α,
      ((DatabaseManager.query env).2.count .acquire =
        (DatabaseManager.query env).2.count .release)) ∧
    (∀ (connect : Except String Unit)
       (cb : DbState → Except String (α × DbState)) (s : DbState),
      (DatabaseManager.transaction connect cb s).2.2.count .acquire =
        (DatabaseManager.transaction connect cb s).2.2.count .release) ∧
    (∀ (cb : DbState → Except String (α × DbState)) (s : DbState) (v : α)
       (s' : DbState), cb s = .ok (v, s') →
      DatabaseManager.transaction (.ok ()) cb s =
        (.ok v, s', [.acquire, .beginTx, .exec, .commitTx, .release])) ∧
    (∀ (cb : DbState → Except String (α × DbState)) (s : DbState) (c : String),
      cb s = .error c →
      DatabaseManager.transaction (.ok ()) cb s =
        (.error (.classified (DatabaseManager.transformDatabaseError (some c))), s,
         [.acquire, .beginTx, .exec, .rollbackTx, .release])) := by
  refine ⟨?_, ?_, ?_, ?_⟩
  · intro env
    unfold DatabaseManager.query
    rcases env with ⟨pool, conn, stmt⟩
    cases pool <;> cases conn <;> (try cases stmt) <;> simp
  · intro connect cb s
    unfold DatabaseManager.transaction
    cases connect <;> (try rcases h : cb s with _ | ⟨v, s'⟩) <;> simp [h]
  · intro cb s v s' h
    unfold DatabaseManager.transaction
    rw [h]
  · intro cb s c h
    unfold DatabaseManager.transaction
    rw [h]

/-- Concrete instantiation of the C8 theorem: a transaction whose body
fails with native code `23505` rolls back (the rollback trace), leaves
the sample store unchanged, and propagates the classified 409 error. -/
theorem connection_pairing_and_transaction_witness :
    DatabaseManager.transaction (.ok ())
        (fun _ => (.error "23505" : Except String (Nat × DbState))) sampleDb =
      (.error (.classified (DatabaseManager.transformDatabaseError (some "23505"))),
       sampleDb,
       [.acquire, .beginTx, .exec, .rollbackTx, .release]) :=
  (connection_pairing_and_transaction (α := Nat)).2.2.2
    (fun _ => .error "23505") sampleDb "23505" rfl

end MemorySafeGuard

namespace MemorySafeGuard

/-- A member of a joined list appears verbatim inside the join. -/
theorem joinSep_contains (sep : String) (parts : List String) (p : String)
    (hp : p ∈ parts) :
    ∃ pre post, ValidationService.joinSep sep parts = pre ++ p ++ post := by
  induction parts with
  | nil => cases hp
  | cons a rest ih =>
    rcases List.mem_cons.mp hp with h | h
    · subst h
      cases rest with
      | nil =>
        refine ⟨"", "", ?_⟩
        simp [ValidationService.joinSep]
      | cons b bs =>
        refine ⟨"", sep ++ ValidationService.joinSep sep (b :: bs), ?_⟩
        simp [ValidationService.joinSep]
        rw [String.append_assoc]
    · cases rest with
      | nil => cases h
      | cons b bs =>
        obtain ⟨pre, post, heq⟩ := ih h
        refine ⟨a ++ sep ++ pre, post, ?_⟩
        simp [ValidationService.joinSep, heq, String.append_assoc]

end MemorySafeGuard

namespace MemorySafeGuard

/-- One schema field reports an issue exactly when the specification's
bound for it is violated, and the issue path is the field name. -/
theorem fieldIssues_fst (p : String) (v : Option String) (maxLen : Nat)
    (reqMsg longMsg : String) :
    (ValidationService.fieldIssues p v maxLen reqMsg longMsg).map Prod.fst =
      if boundViolated v maxLen then [p] else [] := by
  cases v with
  | none => simp [ValidationService.fieldIssues, boundViolated]
  | some s =>
    by_cases h1 : s.length < 1
    · have h2 : ¬ s.length > maxLen := by omega
      simp [ValidationService.fieldIssues, boundViolated, h1, h2]
    · by_cases h2 : s.length > maxLen
      · simp [ValidationService.fieldIssues, boundViolated, h1, h2]
      · simp [ValidationService.fieldIssues, boundViolated, h1, h2]

/-- The fields the Zod schema reports issues for are exactly the fields
the specification's data-model bounds reject. -/
theorem passwordIssues_fields (d : RawPasswordData) :
    (ValidationService.passwordIssues d).map Prod.fst = violatedFields d := by
  unfold ValidationService.passwordIssues violatedFields
  rw [List.map_append, List.map_append, fieldIssues_fst, fieldIssues_fst,
    fieldIssues_fst]

/-- On any reported issue, `validatePasswordData` throws the 400 error
carrying the joined issue list. -/
theorem validatePasswordData_error (body : RawPasswordData)
    (h : ValidationService.passwordIssues body ≠ []) :
    ValidationService.validatePasswordData body =
      .error { message := ValidationService.validationMessage body,
               statusCode := 400, code := none, originalError := none } := by
  rcases body with ⟨os, ou, op⟩
  unfold ValidationService.validatePasswordData
  cases os <;> cases ou <;> cases op <;> simp_all

/-- C5: an out-of-bounds create or update input is rejected with a 400
Validation error whose message names every violated field (not just
the first) — the schema issues cover exactly the fields whose
data-model bounds (service/username 1..100, secret 1..500, required)
are violated — and the rejection happens before any backend operation:
the store is returned untouched. -/
theorem validation_rejects_before_backend (s : DbState) (body : RawPasswordData)
    (h : ValidationService.passwordIssues body ≠ []) :
    ∃ e, PasswordController.createPassword s body = (.error e, s) ∧
      (∀ id, PasswordController.updatePassword s id body = (.error e, s)) ∧
      e.statusCode = 400 ∧
      (ValidationService.passwordIssues body).map Prod.fst = violatedFields body ∧
      ∀ f ∈ violatedFields body,
        ∃ pre post, e.message = pre ++ (f ++ ": ") ++ post := by
  refine ⟨{ message := ValidationService.validationMessage body,
            statusCode := 400, code := none, originalError := none }, ?_, ?_, rfl,
          passwordIssues_fields body, ?_⟩
  · unfold PasswordController.createPassword
    rw [validatePasswordData_error body h]
  · intro id
    unfold PasswordController.updatePassword
    rw [validatePasswordData_error body h]
  · intro f hf
    rw [← passwordIssues_fields body] at hf
    obtain ⟨⟨f', m⟩, hmem, hfst⟩ := List.mem_map.mp hf
    subst hfst
    have hpart : (f', m).1 ++ ": " ++ (f', m).2 ∈
        (ValidationService.passwordIssues body).map fun i => i.1 ++ ": " ++ i.2 :=
      List.mem_map.mpr ⟨(f', m), hmem, rfl⟩
    obtain ⟨pre, post, heq⟩ := joinSep_contains ", " _ _ hpart
    refine ⟨"Validation failed: " ++ pre, m ++ post, ?_⟩
    unfold ValidationService.validationMessage
    rw [heq]
    simp [String.append_assoc]

/-- Concrete instantiation of the C5 theorem: a body whose service has
101 characters and whose password is missing is rejected with a 400
error naming both `service` and `password`, the store untouched. -/
theorem validation_rejects_before_backend_witness :
    ∃ e, PasswordController.createPassword sampleDb
        { service := some (String.mk (List.replicate 101 'a')),
          username := some "u", password := none } = (.error e, sampleDb) ∧
      (∀ id, PasswordController.updatePassword sampleDb id
        { service := some (String.mk (List.replicate 101 'a')),
          username := some "u", password := none } = (.error e, sampleDb)) ∧
      e.statusCode = 400 ∧
      (ValidationService.passwordIssues
        { service := some (String.mk (List.replicate 101 'a')),
          username := some "u", password := none }).map Prod.fst =
        violatedFields
          { service := some (String.mk (List.replicate 101 'a')),
            username := some "u", password := none } ∧
      ∀ f ∈ violatedFields
          { service := some (String.mk (List.replicate 101 'a')),
            username := some "u", password := none },
        ∃ pre post, e.message = pre ++ (f ++ ": ") ++ post :=
  validation_rejects_before_backend sampleDb
    { service := some (String.mk (List.replicate 101 'a')),
      username := some "u", password := none } (by decide)

end MemorySafeGuard

namespace MemorySafeGuard

/-- Finding by id after the storage update locates the updated row. -/
theorem find?_update (rows : List PasswordRecord) (id : Nat)
    (r' : PasswordRecord) (h : r'.id = id) :
    ((rows.map fun x => if x.id == id then r' else x).find? fun r => r.id == id) =
      (rows.find? fun r => r.id == id).map fun _ => r' := by
  induction rows with
  | nil => simp
  | cons x xs ih =>
    rw [List.map_cons]
    by_cases hx : x.id = id
    · rw [List.find?_cons_of_pos _ (by simp [hx, h]),
        List.find?_cons_of_pos _ (by simp [hx])]
      simp [hx]
    · have hfx : (if x.id == id then r' else x) = x := by simp [hx]
      rw [hfx, List.find?_cons_of_neg _ (by simp [hx]),
        List.find?_cons_of_neg _ (by simp [hx])]
      exact ih

/-- C2 counterexample: a partial update supplying only the secret is
not accepted — the controller rejects the body
`{password: "p2"}` with a 400 Validation error naming the missing
`service` and `username`, and the store is untouched; the claim's
"a partial supplying only secret is accepted" fails on the code. -/
theorem update_partial_secret_rejected :
    PasswordController.updatePassword sampleDb 1
        { service := none, username := none, password := some "p2" } =
      (.error { message := "Validation failed: service: Required, username: Required",
                statusCode := 400, code := none, originalError := none },
       sampleDb) := by
  rfl

/-- C2 (amended): the update endpoint accepts only a full
(service, username, secret) payload — a body supplying only the secret
is rejected with a 400 Validation error and the store is untouched.
For a validated full payload: NotFound (404) when the id is absent;
when the new (service, username) pair collides with a different live
row, the `UPDATE` fails on the storage-level unique constraint and the
classified 409 `DUPLICATE_ENTRY` error surfaces with the store
unchanged (a refetch keeps the old fields); otherwise a subsequent
`findById` returns exactly the updated row, which carries the three
supplied fields, retains `id`, `createdAt`, `url` and `notes` (the
latter two are never settable on this path), has a strictly later
`updatedAt`, and every other row survives. -/
theorem update_full_payload (s : DbState) (id : Nat) (body : RawPasswordData)
    (d : PasswordData) (hv : ValidationService.validatePasswordData body = .ok d)
    (hWF : DbWF s) :
    (PasswordRepository.findById s id = none →
      PasswordController.updatePassword s id body =
        (.error { message := "Password not found", statusCode := 404,
                  code := none, originalError := none }, s)) ∧
    (∀ r0, PasswordRepository.findById s id = some r0 →
      pairExists (s.rows.filter fun r => !(r.id == id)) d.service d.username = false →
      ∃ r' s', PasswordController.updatePassword s id body = (.ok r', s') ∧
        PasswordRepository.findById s' id = some r' ∧
        r'.service = d.service ∧ r'.username = d.username ∧
        r'.password = d.password ∧
        r'.id = r0.id ∧ r'.createdAt = r0.createdAt ∧
        r'.url = r0.url ∧ r'.notes = r0.notes ∧
        r0.updatedAt < r'.updatedAt ∧
        ∀ x ∈ s.rows, x.id ≠ id → x ∈ s'.rows) ∧
    (∀ r0, PasswordRepository.findById s id = some r0 →
      pairExists (s.rows.filter fun r => !(r.id == id)) d.service d.username = true →
      PasswordController.updatePassword s id body =
        (.error (DatabaseManager.transformDatabaseError (some "23505")), s)) ∧
    DatabaseManager.transformDatabaseError (some "23505") =
      { message := "Duplicate entry found", statusCode := 409,
        code := some "DUPLICATE_ENTRY", originalError := some "23505" } ∧
    (∀ pw : String, ∃ e,
      PasswordController.updatePassword s id
          { service := none, username := none, password := some pw } =
        (.error e, s) ∧ e.statusCode = 400) := by
  refine ⟨?_, ?_, ?_, rfl, ?_⟩
  · intro h
    unfold PasswordController.updatePassword
    rw [hv]
    unfold PasswordService.updatePassword
    rw [h]
  · intro r0 hfind hnoconflict
    have hid : r0.id = id := by
      have := List.find?_some hfind
      simpa using this
    have hmem : r0 ∈ s.rows := List.mem_of_find?_eq_some hfind
    refine ⟨{ r0 with
              service := d.service, username := d.username,
              password := d.password, updatedAt := s.now },
            { s with
              rows := s.rows.map (fun x =>
                if x.id == id then
                  { r0 with
                    service := d.service, username := d.username,
                    password := d.password, updatedAt := s.now }
                else x),
              now := s.now + 1 }, ?_, ?_, rfl, rfl, rfl, rfl, rfl, rfl, rfl,
            hWF.2 r0 hmem, ?_⟩
    · unfold PasswordRepository.findById at hfind
      simp only [PasswordController.updatePassword, hv,
        PasswordService.updatePassword, PasswordRepository.findById, hfind,
        PasswordRepository.update, updateRow,
        SecurityService.encryptPasswordData]
      simp [hnoconflict]
    · unfold PasswordRepository.findById at hfind
      unfold PasswordRepository.findById
      simp only [List.map_cons]
      rw [find?_update _ _ _ (by simpa using hid), hfind]
      rfl
    · intro x hx hne
      have hfix : (fun y : PasswordRecord =>
          if y.id == id then
            { r0 with
              service := d.service, username := d.username,
              password := d.password, updatedAt := s.now }
          else y) x = x := by
        simp [hne]
      have hmm := List.mem_map_of_mem (fun y : PasswordRecord =>
          if y.id == id then
            { r0 with
              service := d.service, username := d.username,
              password := d.password, updatedAt := s.now }
          else y) hx
      rw [hfix] at hmm
      exact hmm
  · intro r0 hfind hconf
    unfold PasswordRepository.findById at hfind
    simp only [PasswordController.updatePassword, hv,
      PasswordService.updatePassword, PasswordRepository.findById, hfind,
      PasswordRepository.update, updateRow,
      SecurityService.encryptPasswordData]
    simp [hconf]
  · intro pw
    refine ⟨{ message := ValidationService.validationMessage
                { service := none, username := none, password := some pw },
              statusCode := 400, code := none, originalError := none }, ?_, rfl⟩
    unfold PasswordController.updatePassword
    rw [validatePasswordData_error _ (by
      unfold ValidationService.passwordIssues ValidationService.fieldIssues
      simp)]

/-- Concrete instantiation of the C2 theorem: updating the sample
record with a full payload changing only the secret succeeds, the
refetched row carries the new secret, keeps service, username, id,
createdAt, url and notes, and its updatedAt strictly increased; and a
full payload renaming the second sample record to the first one's live
pair fails with the classified 409 duplicate error, the store
unchanged. -/
theorem update_full_payload_witness :
    (∃ r' s', PasswordController.updatePassword sampleDb 1
        { service := some "Gmail", username := some "a@x.com",
          password := some "p2" } = (.ok r', s') ∧
      PasswordRepository.findById s' 1 = some r' ∧
      r'.service = "Gmail" ∧ r'.username = "a@x.com" ∧ r'.password = "p2" ∧
      r'.id = sampleRec.id ∧ r'.createdAt = sampleRec.createdAt ∧
      r'.url = sampleRec.url ∧ r'.notes = sampleRec.notes ∧
      sampleRec.updatedAt < r'.updatedAt ∧
      ∀ x ∈ sampleDb.rows, x.id ≠ 1 → x ∈ s'.rows) ∧
    PasswordController.updatePassword sampleDb2 2
        { service := some "Gmail", username := some "a@x.com",
          password := some "p9" } =
      (.error (DatabaseManager.transformDatabaseError (some "23505")), sampleDb2) :=
  ⟨(update_full_payload sampleDb 1
      { service := some "Gmail", username := some "a@x.com", password := some "p2" }
      { service := "Gmail", username := "a@x.com", password := "p2" }
      (by decide) (by decide)).2.1 sampleRec (by decide) (by decide),
   (update_full_payload sampleDb2 2
      { service := some "Gmail", username := some "a@x.com", password := some "p9" }
      { service := "Gmail", username := "a@x.com", password := "p9" }
      (by decide) (by decide)).2.2.1 sampleRec2 (by decide) (by decide)⟩

end MemorySafeGuard

namespace MemorySafeGuard

/-- The duplicate pre-check and the unique constraint test the same
predicate: the `SELECT` by pair returns nothing exactly when no row
carries the pair. -/
theorem findByServiceAndUsername_none_iff (s : DbState) (a b : String) :
    PasswordRepository.findByServiceAndUsername s a b = none ↔
      pairExists s.rows a b = false := by
  unfold PasswordRepository.findByServiceAndUsername pairExists
  rw [List.find?_eq_none]
  simp

/-- One step of an in-flight create preserves the race invariantʼs
per-thread facts: failures stay 409, a success certifies its pair is
stored, the stored pairs only grow, and a fresh success can only happen
when the pair was absent. -/
theorem stepThread_spec (d : PasswordData) (s : DbState) (p : Race.ThreadPhase)
    (hp : Race.errIs409 p)
    (hok : Race.okPhase p = true → pairExists s.rows d.service d.username = true) :
    Race.errIs409 (Race.stepThread d s p).2 ∧
    (Race.okPhase (Race.stepThread d s p).2 = true →
      pairExists (Race.stepThread d s p).1.rows d.service d.username = true) ∧
    (∀ a b, pairExists s.rows a b = true →
      pairExists (Race.stepThread d s p).1.rows a b = true) ∧
    (Race.okPhase (Race.stepThread d s p).2 = true →
      Race.okPhase p = true ∨ pairExists s.rows d.service d.username = false) := by
  cases p with
  | start =>
    cases hfind : PasswordRepository.findByServiceAndUsername s d.service d.username with
    | some x =>
      simp [Race.stepThread, hfind, Race.errIs409, Race.okPhase]
    | none =>
      simp [Race.stepThread, hfind, Race.errIs409, Race.okPhase]
  | checked =>
    cases hpair : pairExists s.rows d.service d.username with
    | true =>
      simp [Race.stepThread, PasswordRepository.create, insertRow, hpair,
        Race.errIs409, Race.okPhase, DatabaseManager.transformDatabaseError]
    | false =>
      have hgrow : ∀ a b, pairExists s.rows a b = true →
          pairExists (s.rows ++
            [{ id := s.nextId, service := d.service, username := d.username,
               password := d.password, url := none, notes := none,
               createdAt := s.now, updatedAt := s.now }]) a b = true := by
        intro a b hab
        unfold pairExists at hab ⊢
        rw [List.any_append, hab]
        rfl
      have hstep : Race.stepThread d s .checked =
          ({ rows := s.rows ++
              [{ id := s.nextId, service := d.service, username := d.username,
                 password := d.password, url := none, notes := none,
                 createdAt := s.now, updatedAt := s.now }],
             nextId := s.nextId + 1, now := s.now + 1 },
           .doneOk { id := s.nextId, service := d.service, username := d.username,
                     password := d.password, url := none, notes := none,
                     createdAt := s.now, updatedAt := s.now }) := by
        unfold Race.stepThread PasswordRepository.create insertRow
        rw [if_neg (by simp [hpair])]
      rw [hstep]
      refine ⟨trivial, ?_, ?_, fun _ => Or.inr rfl⟩
      · intro _
        unfold pairExists
        rw [List.any_append]
        simp
      · intro a b hab
        exact hgrow a b hab
  | doneOk r =>
    exact ⟨trivial, fun _ => hok rfl, fun a b hab => hab, fun _ => Or.inl rfl⟩
  | doneErr e =>
    exact ⟨hp, fun h => absurd h (by simp [Race.stepThread, Race.okPhase]),
      fun a b hab => hab,
      fun h => absurd h (by simp [Race.stepThread, Race.okPhase])⟩

/-- The race invariant is preserved by every schedule step. -/
theorem raceStep_inv (d : PasswordData) (c : Race.RaceConfig) (b : Bool)
    (h : Race.Inv d c) : Race.Inv d (Race.raceStep d c b) := by
  obtain ⟨h1, h2, h3, h4, h5⟩ := h
  cases b with
  | true =>
    obtain ⟨hE, hOk, hMono, hFresh⟩ := stepThread_spec d c.store c.t1 h4 h1
    refine ⟨hOk, ?_, ?_, hE, h5⟩
    · intro ht2
      exact hMono _ _ (h2 ht2)
    · rintro ⟨hp', ht2⟩
      rcases hFresh hp' with hold | habsent
      · exact h3 ⟨hold, ht2⟩
      · rw [h2 ht2] at habsent
        cases habsent
  | false =>
    obtain ⟨hE, hOk, hMono, hFresh⟩ := stepThread_spec d c.store c.t2 h5 h2
    refine ⟨?_, hOk, ?_, h4, hE⟩
    · intro ht1
      exact hMono _ _ (h1 ht1)
    · rintro ⟨ht1, hp'⟩
      rcases hFresh hp' with hold | habsent
      · exact h3 ⟨ht1, hold⟩
      · rw [h1 ht1] at habsent
        cases habsent

/-- The race invariant holds after any interleaving. -/
theorem raceRun_inv (d : PasswordData) (sched : List Bool) (c : Race.RaceConfig)
    (h : Race.Inv d c) : Race.Inv d (Race.raceRun d sched c) := by
  induction sched generalizing c with
  | nil => exact h
  | cons b rest ih => exact ih _ (raceStep_inv d c b h)

/-- C1: creating a record whose `(service, username)` pair is already
live fails with the 409 Conflict error (the caller's store unchanged,
since only an error is returned); creating a fresh pair succeeds and
the returned record carries a newly assigned id (distinct from every
stored id on a well-formed store) and createdAt/updatedAt timestamps;
and under every interleaving of two concurrent creates of the same
pair, the two calls never both succeed and any losing call receives a
409 Conflict — in the schedule where both pre-checks pass, via the
storage-level unique constraint mapped by `transformDatabaseError`, not
the application-level pre-check. -/
theorem create_conflict_unique (d : PasswordData) (s : DbState) :
    (pairExists s.rows d.service d.username = true →
      PasswordService.createPassword s d =
        .error { message := "Password entry already exists for this service and username",
                 statusCode := 409, code := none, originalError := none }) ∧
    (pairExists s.rows d.service d.username = false →
      ∃ r s', PasswordService.createPassword s d = .ok (r, s') ∧
        r.id = s.nextId ∧ r.service = d.service ∧ r.username = d.username ∧
        r.password = d.password ∧ r.createdAt = s.now ∧ r.updatedAt = s.now ∧
        s'.rows = s.rows ++ [r] ∧
        (DbWF s → ∀ x ∈ s.rows, x.id ≠ r.id)) ∧
    (∀ sched : List Bool,
      ¬(Race.okPhase (Race.raceRun d sched ⟨s, .start, .start⟩).t1 = true ∧
        Race.okPhase (Race.raceRun d sched ⟨s, .start, .start⟩).t2 = true) ∧
      (∀ e, (Race.raceRun d sched ⟨s, .start, .start⟩).t1 = .doneErr e →
        e.statusCode = 409) ∧
      (∀ e, (Race.raceRun d sched ⟨s, .start, .start⟩).t2 = .doneErr e →
        e.statusCode = 409)) := by
  refine ⟨?_, ?_, ?_⟩
  · intro hpair
    unfold PasswordService.createPassword
    cases hfind : PasswordRepository.findByServiceAndUsername s d.service d.username with
    | some x => rfl
    | none =>
      rw [findByServiceAndUsername_none_iff] at hfind
      rw [hfind] at hpair
      cases hpair
  · intro hpair
    refine ⟨{ id := s.nextId, service := d.service, username := d.username,
              password := d.password, url := none, notes := none,
              createdAt := s.now, updatedAt := s.now },
            { rows := s.rows ++ [_], nextId := s.nextId + 1, now := s.now + 1 },
            ?_, rfl, rfl, rfl, rfl, rfl, rfl, rfl, ?_⟩
    · unfold PasswordService.createPassword
      rw [(findByServiceAndUsername_none_iff s d.service d.username).mpr hpair]
      simp [PasswordRepository.create, insertRow,
        SecurityService.encryptPasswordData, hpair]
    · intro hWF x hx
      have := hWF.1 x hx
      show x.id ≠ s.nextId
      omega
  · intro sched
    have hInv : Race.Inv d (Race.raceRun d sched ⟨s, .start, .start⟩) := by
      refine raceRun_inv d sched _ ⟨?_, ?_, ?_, ?_, ?_⟩ <;>
        simp [Race.okPhase, Race.errIs409]
    obtain ⟨_, _, h3, h4, h5⟩ := hInv
    refine ⟨h3, ?_, ?_⟩
    · intro e he
      rw [he] at h4
      exact h4
    · intro e he
      rw [he] at h5
      exact h5

/-- Concrete instantiation of the C1 theorem: in the interleaving where
both pre-checks pass before either insert, the first call succeeds and
the second receives the 409 `DUPLICATE_ENTRY` error produced by the
unique-constraint mapping; also, re-creating the already stored sample
pair fails with the application-level 409 Conflict. -/
theorem create_conflict_unique_witness :
    PasswordService.createPassword sampleDb
        { service := "Gmail", username := "a@x.com", password := "zz" } =
      .error { message := "Password entry already exists for this service and username",
               statusCode := 409, code := none, originalError := none } ∧
    ∀ e, (Race.raceRun { service := "S", username := "U", password := "P" }
        [true, false, true, false]
        ⟨{ rows := [], nextId := 0, now := 0 }, .start, .start⟩).t2 = .doneErr e →
      e.statusCode = 409 :=
  ⟨(create_conflict_unique
      { service := "Gmail", username := "a@x.com", password := "zz" } sampleDb).1
      (by decide),
   (create_conflict_unique
      { service := "S", username := "U", password := "P" }
      { rows := [], nextId := 0, now := 0 }).2.2
      [true, false, true, false] |>.2.2⟩

end MemorySafeGuard

namespace MemorySafeGuard

end MemorySafeGuard

namespace MemorySafeGuard

/-- A run of the retry loop beginning at attempt `j`: after `m`
consecutive retryable failures followed by a success, and budget
`m ≤ r`, the wrapper resolves with the success value after `j + m + 1`
attempts, waiting `base * 2 ^ attempt` before each re-attempt. -/
theorem handleAux_run {α : Type} (outcomes : Nat → Except Frontend.CaughtError α)
    (base : Nat) (v : α) :
    ∀ (m j r : Nat), m ≤ r →
      (∀ i, j ≤ i → i < j + m → ∃ e, outcomes i = .error e ∧
        Frontend.getDefaultRecoveryStrategy (Frontend.classifyCaught e) = .RETRY) →
      outcomes (j + m) = .ok v →
      Frontend.handleAux outcomes base j r =
        { outcome := .ok v, attempts := j + m + 1,
          delays := (List.range m).map fun i => base * 2 ^ (j + i) } := by
  intro m
  induction m with
  | zero =>
    intro j r _ _ hok
    rw [Nat.add_zero] at hok
    unfold Frontend.handleAux
    rw [hok]
    simp
  | succ m ih =>
    intro j r hmr hfail hok
    obtain ⟨e, he, hretry⟩ := hfail j (Nat.le_refl j) (by omega)
    cases r with
    | zero => omega
    | succ r' =>
      unfold Frontend.handleAux
      rw [he]
      simp only []
      rw [if_pos hretry,
        ih (j + 1) r' (by omega) (fun i h1 h2 => hfail i (by omega) (by omega))
          (by rw [show j + 1 + m = j + (m + 1) from by omega]; exact hok)]
      have hdel : (List.range (m + 1)).map (fun i => base * 2 ^ (j + i)) =
          base * 2 ^ j :: (List.range m).map (fun i => base * 2 ^ (j + 1 + i)) := by
        rw [List.range_succ_eq_map, List.map_cons, List.map_map]
        have hshift : ((fun i => base * 2 ^ (j + i)) ∘ Nat.succ) =
            fun i => base * 2 ^ (j + 1 + i) := by
          funext i
          simp only [Function.comp]
          rw [show j + Nat.succ i = j + 1 + i from by omega]
        rw [hshift]
        simp
      rw [hdel]
      have hatt : j + 1 + m + 1 = j + (m + 1) + 1 := by omega
      rw [hatt]

/-- C6 counterexample: a backend Conflict (or NotFound) failure reaches
the wrapper as a non-AppError thrown value; the wrapper classifies it
UNKNOWN, whose recovery strategy is RETRY, so with one retry in the
budget the failed attempt is re-attempted (two attempts, one backoff
wait) rather than propagated immediately — the claim's "Conflict and
NotFound propagate immediately with no re-attempt" fails on this code,
whose taxonomy has no Conflict or NotFound kind at all. -/
theorem conflict_failure_is_retried :
    Frontend.classifyCaught .jsError = .UNKNOWN ∧
    Frontend.getDefaultRecoveryStrategy .UNKNOWN = .RETRY ∧
    Frontend.handleAsyncOperation
        (fun i => if i == 0 then .error .jsError else .ok (42 : Nat)) 1 1000 =
      { outcome := .ok 42, attempts := 2, delays := [1000] } :=
  ⟨rfl, rfl, rfl⟩

/-- C6 (amended): in `handleAsyncOperation`, an error whose classified
kind has a non-RETRY recovery strategy (Validation, Permission,
Authentication — the taxonomy has no Conflict or NotFound kinds) is
propagated immediately after the first attempt with no re-attempt and
no backoff wait; a run of retryable failures (Network, Database,
Clipboard, Unknown) within the retry budget is re-attempted with the
wait doubling per attempt from the configured base delay; and an
attempt that succeeds within the budget resolves the wrapper with the
success value. -/
theorem retry_wrapper_behavior {α : Type} :
    (Frontend.getDefaultRecoveryStrategy .NETWORK = .RETRY ∧
     Frontend.getDefaultRecoveryStrategy .DATABASE = .RETRY ∧
     Frontend.getDefaultRecoveryStrategy .VALIDATION = .FALLBACK ∧
     Frontend.getDefaultRecoveryStrategy .PERMISSION = .FALLBACK ∧
     Frontend.getDefaultRecoveryStrategy .AUTHENTICATION = .REDIRECT ∧
     Frontend.getDefaultRecoveryStrategy .UNKNOWN = .RETRY) ∧
    (∀ (outcomes : Nat → Except Frontend.CaughtError α) (rc base : Nat)
       (e : Frontend.CaughtError),
      outcomes 0 = .error e →
      Frontend.getDefaultRecoveryStrategy (Frontend.classifyCaught e) ≠ .RETRY →
      Frontend.handleAsyncOperation outcomes rc base =
        { outcome := .error (Frontend.classifyCaught e), attempts := 1,
          delays := [] }) ∧
    (∀ (outcomes : Nat → Except Frontend.CaughtError α) (rc base n : Nat) (v : α),
      n ≤ rc →
      (∀ i, i < n → ∃ e, outcomes i = .error e ∧
        Frontend.getDefaultRecoveryStrategy (Frontend.classifyCaught e) = .RETRY) →
      outcomes n = .ok v →
      Frontend.handleAsyncOperation outcomes rc base =
        { outcome := .ok v, attempts := n + 1,
          delays := (List.range n).map fun i => base * 2 ^ i }) := by
  refine ⟨⟨rfl, rfl, rfl, rfl, rfl, rfl⟩, ?_, ?_⟩
  · intro outcomes rc base e he hnr
    unfold Frontend.handleAsyncOperation
    cases rc with
    | zero =>
      unfold Frontend.handleAux
      rw [he]
    | succ r =>
      unfold Frontend.handleAux
      rw [he]
      simp only []
      rw [if_neg hnr]
  · intro outcomes rc base n v hn hfail hok
    have h := handleAux_run outcomes base v n 0 rc hn
      (fun i h1 h2 => hfail i (by omega)) (by simpa using hok)
    rw [Frontend.handleAsyncOperation, h]
    simp

/-- Concrete instantiation of the C6 theorem: two injected transient
Network failures followed by a success resolve with the success value
after three attempts, the waits following the doubling backoff schedule
1000 then 2000. -/
theorem retry_wrapper_behavior_witness :
    Frontend.handleAsyncOperation
        (fun i => if i < 2 then .error (.appError .NETWORK) else .ok (7 : Nat))
        3 1000 =
      { outcome := .ok 7, attempts := 3, delays := [1000, 2000] } := by
  rw [(retry_wrapper_behavior (α := Nat)).2.2
    (fun i => if i < 2 then .error (.appError .NETWORK) else .ok 7) 3 1000 2 7
    (by omega)
    (fun i hi => ⟨.appError .NETWORK, by simp [hi], rfl⟩)
    (by decide)]
  rfl

end MemorySafeGuard

namespace MemorySafeGuard

/-- C9 counterexample: a create whose service value contains a double
quote and an SQL comment delimiter stores that value verbatim — the
defined sanitizer `sanitizeSqlInput` would have stripped them, but the
create path never invokes it (nor the markup-stripping middleware,
which no server entry point registers), so "quote characters and
comment-delimiter sequences are stripped from the values that get
stored" fails on the code. -/
theorem stored_value_not_sanitized :
    ∃ r s', PasswordController.createPassword
        { rows := [], nextId := 0, now := 0 }
        { service := some "a\"b--c", username := some "u",
          password := some "p" } = (.ok r, s') ∧
      r.service = "a\"b--c" ∧
      ValidationService.sanitizeSqlInput "a\"b--c" = "abc" ∧
      r.service ≠ ValidationService.sanitizeSqlInput "a\"b--c" := by
  refine ⟨{ id := 0, service := "a\"b--c", username := "u", password := "p",
            url := none, notes := none, createdAt := 0, updatedAt := 0 },
          { rows := [{ id := 0, service := "a\"b--c", username := "u",
                       password := "p", url := none, notes := none,
                       createdAt := 0, updatedAt := 0 }],
            nextId := 1, now := 1 }, rfl, rfl, rfl, by decide⟩

/-- C9 (amended): the create path applies no sanitization to the
free-text fields: validation only trims `service` and `username`, and
the value the backend stores is exactly the trimmed input — quote
characters, comment-delimiter sequences and markup tags survive into
storage.  The sanitizers (`ValidationService.sanitizeSqlInput`,
`SecurityService.sanitizeInput` and the `sanitizeInput` middleware)
exist in the repository but none is invoked between the request body
and the `INSERT`. -/
theorem create_stores_trimmed_input_only (s : DbState) (sv un pw : String)
    (hok : ValidationService.passwordIssues
      { service := some sv, username := some un, password := some pw } = [])
    (hpair : pairExists s.rows (jsTrim sv) (jsTrim un) = false) :
    ∃ r s', PasswordController.createPassword s
        { service := some sv, username := some un, password := some pw } =
        (.ok r, s') ∧
      r.service = jsTrim sv ∧ r.username = jsTrim un ∧ r.password = pw := by
  have hv : ValidationService.validatePasswordData
      { service := some sv, username := some un, password := some pw } =
      .ok { service := jsTrim sv, username := jsTrim un, password := pw } := by
    simp only [ValidationService.validatePasswordData]
    rw [if_pos hok]
  refine ⟨{ id := s.nextId, service := jsTrim sv, username := jsTrim un,
            password := pw, url := none, notes := none,
            createdAt := s.now, updatedAt := s.now },
          { rows := s.rows ++
              [{ id := s.nextId, service := jsTrim sv, username := jsTrim un,
                 password := pw, url := none, notes := none,
                 createdAt := s.now, updatedAt := s.now }],
            nextId := s.nextId + 1, now := s.now + 1 }, ?_, rfl, rfl, rfl⟩
  have hfind := (findByServiceAndUsername_none_iff s (jsTrim sv) (jsTrim un)).mpr hpair
  simp only [PasswordController.createPassword, hv, PasswordService.createPassword,
    SecurityService.encryptPasswordData, hfind, PasswordRepository.create, insertRow]
  simp [hpair]

/-- Concrete instantiation of the C9 theorem: creating with service
value containing a quote stores it unchanged. -/
theorem create_stores_trimmed_input_only_witness :
    ∃ r s', PasswordController.createPassword
        { rows := [], nextId := 0, now := 0 }
        { service := some "x\"y", username := some "u",
          password := some "p" } = (.ok r, s') ∧
      r.service = jsTrim "x\"y" ∧ r.username = jsTrim "u" ∧
      r.password = "p" :=
  create_stores_trimmed_input_only { rows := [], nextId := 0, now := 0 }
    "x\"y" "u" "p" (by decide) (by decide)

end MemorySafeGuard

namespace MemorySafeGuard

/-- A successful association-list lookup locates a stored entry. -/
theorem lookup_mem {α β : Type} [BEq α] [LawfulBEq α]
    (l : List (α × β)) (k : α) (v : β) (h : l.lookup k = some v) :
    (k, v) ∈ l := by
  induction l with
  | nil => cases h
  | cons p rest ih =>
    rcases p with ⟨a, b⟩
    by_cases hk : k == a
    · have hka : k = a := eq_of_beq hk
      simp only [List.lookup, hk] at h
      rw [List.mem_cons]
      left
      rw [hka, Option.some_inj.mp h]
    · simp only [List.lookup, hk] at h
      exact List.mem_cons.mpr (Or.inr (ih h))

/-- C10 counterexample: calling the forced neon selector twice does not
(re)construct a fresh instance — the second call returns the cached
singleton (identical instance, construction count still 1), so
"always (re)constructs the requested backend kind" fails on the code. -/
theorem forced_selector_returns_cached :
    (ServiceFactory.getNeonPasswordService ⟨false, false, true⟩
      (ServiceFactory.getNeonPasswordService ⟨false, false, true⟩
        ⟨[], 0, 0⟩).2).1 =
      (ServiceFactory.getNeonPasswordService ⟨false, false, true⟩ ⟨[], 0, 0⟩).1 ∧
    (ServiceFactory.getNeonPasswordService ⟨false, false, true⟩
      (ServiceFactory.getNeonPasswordService ⟨false, false, true⟩
        ⟨[], 0, 0⟩).2).2.constructions = 1 :=
  ⟨rfl, rfl⟩

/-- C10 (amended): the forced selectors do bypass detection — their
result is independent of the detection configuration and is always of
the requested kind (on a well-formed cache) — but they serve the keyed
singleton from the factory cache: a fresh instance is constructed only
when the key is absent (construction count increments and the new
instance id is issued); when the key is present the previously cached
instance is returned with the state unchanged. -/
theorem forced_selectors_cached (env env2 : ServiceFactory.EnvConfig)
    (st : ServiceFactory.FactoryState) :
    (ServiceFactory.getNeonPasswordService env st =
      ServiceFactory.getNeonPasswordService env2 st) ∧
    (ServiceFactory.getIndexedDBPasswordService env st =
      ServiceFactory.getIndexedDBPasswordService env2 st) ∧
    (ServiceFactory.FactoryWF st →
      (ServiceFactory.getNeonPasswordService env st).1.kind = .neon ∧
      (ServiceFactory.getIndexedDBPasswordService env st).1.kind = .indexeddb) ∧
    (st.services.lookup "neon-password-service-true" = none →
      (ServiceFactory.getNeonPasswordService env st).1 =
        { kind := .neon, instanceId := st.nextInstanceId } ∧
      (ServiceFactory.getNeonPasswordService env st).2.constructions =
        st.constructions + 1) ∧
    (∀ inst, st.services.lookup "neon-password-service-true" = some inst →
      ServiceFactory.getNeonPasswordService env st = (inst, st)) := by
  refine ⟨rfl, rfl, ?_, ?_, ?_⟩
  · intro hwf
    constructor
    · show (ServiceFactory.getOrCreate "neon-password-service-true" .neon st).1.kind = .neon
      unfold ServiceFactory.getOrCreate
      cases hl : st.services.lookup "neon-password-service-true" with
      | none => rfl
      | some inst =>
        have := hwf _ (lookup_mem _ _ _ hl)
        simpa [ServiceFactory.keyKind] using this
    · show (ServiceFactory.getOrCreate "password-service-indexeddb-false" .indexeddb st).1.kind = .indexeddb
      unfold ServiceFactory.getOrCreate
      cases hl : st.services.lookup "password-service-indexeddb-false" with
      | none => rfl
      | some inst =>
        have := hwf _ (lookup_mem _ _ _ hl)
        simpa [ServiceFactory.keyKind] using this
  · intro hl
    constructor
    · show (ServiceFactory.getOrCreate "neon-password-service-true" .neon st).1 = _
      unfold ServiceFactory.getOrCreate
      rw [hl]
    · show (ServiceFactory.getOrCreate "neon-password-service-true" .neon st).2.constructions = _
      unfold ServiceFactory.getOrCreate
      rw [hl]
  · intro inst hl
    show ServiceFactory.getOrCreate "neon-password-service-true" .neon st = _
    unfold ServiceFactory.getOrCreate
    rw [hl]

/-- Concrete instantiation of the C10 theorem: on an empty cache the
forced neon selector constructs the instance with the next id and
increments the construction count. -/
theorem forced_selectors_cached_witness :
    (ServiceFactory.getNeonPasswordService ⟨false, false, true⟩ ⟨[], 0, 0⟩).1 =
      { kind := .neon, instanceId := 0 } ∧
    (ServiceFactory.getNeonPasswordService ⟨false, false, true⟩
      ⟨[], 0, 0⟩).2.constructions = 0 + 1 :=
  (forced_selectors_cached ⟨false, false, true⟩ ⟨true, true, false⟩
    ⟨[], 0, 0⟩).2.2.2.1 rfl

end MemorySafeGuard
